import Mathlib

/-!
Verification of the homework status notification bot (`homework.py`,
`exceptions.py`) against its specification.

The program polls a remote status endpoint, validates the response,
extracts a status message for the most recent homework record and forwards
it through a messaging channel, deduplicating against the last sent text.

Shallow embedding conventions:
  * A JSON-ish API response is `RawResponse`: either not a mapping
    (`notDict`), or a mapping whose `homeworks` field is absent, present
    but not a list, or a list of records, and whose `current_date` field
    is an optional integer (`none` = key absent).
  * A homework record is `Homework` with optional `homework_name`
    (`none` = key absent) and optional `status` (`none` = key absent or
    null; the code only reads it with `.get`, which merges the two).
  * Python exceptions become `Except` errors with structured kinds;
    `requests.get` and `response.json()` outcomes are abstracted by
    `NetOutcome`; the Telegram transport by a `send : String → Bool`
    success oracle applied to each attempted message.
  * `get_api_answer` additionally returns the number of network request
    attempts it makes, so the no-retry property is statable.
-/

namespace HomeworkBot

/-- The static verdict table `HOMEWORK_VERDICTS` from `homework.py`. -/
def HOMEWORK_VERDICTS : List (String × String) :=
  [("approved", "Работа проверена: ревьюеру всё понравилось. Ура!"),
   ("reviewing", "Работа взята на проверку ревьюером."),
   ("rejected", "Работа проверена: у ревьюера есть замечания.")]

/-- One homework record of the API response. `none` models an absent key. -/
structure Homework where
  homework_name : Option String
  status : Option String
deriving DecidableEq, Repr

/-- The `homeworks` field of a mapping response: absent, present but not a
list (`isinstance(homeworks, list)` fails), or an actual list of records. -/
inductive HwField where
  | absent
  | notList
  | list (hs : List Homework)
deriving DecidableEq, Repr

/-- A decoded API response body: not a dict, or a dict with its
`homeworks` and `current_date` fields. -/
inductive RawResponse where
  | notDict
  | dict (homeworks : HwField) (current_date : Option Int)
deriving DecidableEq, Repr

/-- Errors raised by `check_response`: `TypeError` for a non-dict response,
`NonCorrectResponseFromAPI` for a missing key, `TypeError` again for a
non-list `homeworks` value. -/
inductive CheckErr where
  | typeErrorNotDict
  | nonCorrectMissingKey
  | typeErrorNotList
deriving DecidableEq, Repr

/-- Errors raised by `parse_status`: `KeyError` for a missing
`homework_name` key, and `KeyError` carrying the offending status value
(`none` standing for Python `None`) for a status outside the verdict table. -/
inductive ParseErr where
  | missingName
  | unknownStatus (offending : Option String)
deriving DecidableEq, Repr

/-- The single failure kind of `get_api_answer`
(`APIEndPointIsNotAvailable` from `exceptions.py`; the function's blanket
`except` re-wraps every other exception into this one). -/
inductive FetchErr where
  | endpointUnavailable
deriving DecidableEq, Repr

/-- The `isinstance(homeworks, list)` test followed by using the value. -/
def hwAsList : HwField → Option (List Homework)
  | .list hs => some hs
  | _ => none

/-- `check_response` from `homework.py`: reject a non-dict, then reject when
`homeworks` or `current_date` is missing, then reject a non-list
`homeworks` value, else return the homeworks list. -/
def check_response : RawResponse → Except CheckErr (List Homework)
  | .notDict => .error .typeErrorNotDict
  | .dict hw cd =>
    if hw = .absent ∨ cd = none then .error .nonCorrectMissingKey
    else
      match hwAsList hw with
      | some hs => .ok hs
      | none => .error .typeErrorNotList

/-- `parse_status` from `homework.py`: reject a record without a
`homework_name` key; look the `.get('status')` value up in
`HOMEWORK_VERDICTS` (a missing status reads as `None`, which is never a
key); on success render the fixed template with name and verdict. -/
def parse_status (hw : Homework) : Except ParseErr String :=
  match hw.homework_name with
  | none => .error .missingName
  | some homework_name =>
    match hw.status with
    | none => .error (.unknownStatus none)
    | some s =>
      match HOMEWORK_VERDICTS.lookup s with
      | none => .error (.unknownStatus (some s))
      | some verdict =>
        .ok ("Изменился статус проверки работы \"" ++ homework_name
              ++ "\". " ++ verdict)

/-- Outcome of the single `requests.get` call inside `get_api_answer`:
the call raises, or returns a response with a status code and a body that
either decodes (`some`) or makes `response.json()` raise (`none`). -/
inductive NetOutcome where
  | transportError
  | response (status_code : Nat) (body : Option RawResponse)
deriving DecidableEq, Repr

/-- `get_api_answer` from `homework.py`, paired with the number of network
request attempts it makes (the source contains exactly one `requests.get`,
no loop). A non-OK status raises `APIEndPointIsNotAvailable`; the blanket
`except` turns a transport error, a `json()` failure, or the in-body raise
itself into `APIEndPointIsNotAvailable` as well. -/
def get_api_answer (net : NetOutcome) : Nat × Except FetchErr RawResponse :=
  match net with
  | .transportError => (1, .error .endpointUnavailable)
  | .response code body =>
    if code ≠ 200 then (1, .error .endpointUnavailable)
    else
      match body with
      | none => (1, .error .endpointUnavailable)
      | some r => (1, .ok r)

/-- The exceptions the loop body of `main` can catch: a fetch failure, the
`AttributeError` from `response.get` on a non-dict, a validation error, an
extraction error, or the exception `send_message` re-raises after a failed
Telegram send. -/
inductive LoopErr where
  | fetchErr
  | attrErr
  | checkErr (e : CheckErr)
  | parseErr (e : ParseErr)
  | sendErr
deriving DecidableEq, Repr

/-- Rendering of the caught exception's text (`str(error)`), abstracted to
one representative string per error kind; the claims below depend only on
this rendering being a function of the error. -/
def exc_text : LoopErr → String
  | .fetchErr => "Ошибка при запросе к API"
  | .attrErr => "object has no attribute get"
  | .checkErr .typeErrorNotDict => "Полученный ответ API не является dict"
  | .checkErr .nonCorrectMissingKey => "Нет ключа homeworks в ответе API"
  | .checkErr .typeErrorNotList => "Ответ в API homeworks не является list"
  | .parseErr .missingName => "Нет ключа homework_name в ответе API"
  | .parseErr (.unknownStatus _) => "Неизвестный статус работы"
  | .sendErr => "Ошибка при отправке сообщения-статус"

/-- The error-path notification text `f'Сбой в работе программы: {error}'`. -/
def error_message (e : LoopErr) : String :=
  "Сбой в работе программы: " ++ exc_text e

/-- The loop's mutable state in `main`: `current_timestamp` (the cursor;
`Option` because `response.get('current_date')` can store `None`) and
`last_message`. -/
structure LoopState where
  current_timestamp : Option Int
  last_message : String
deriving DecidableEq, Repr

/-- What one iteration of the `while True` body did: the state afterwards,
the messages whose send was attempted (in order), the messages whose send
succeeded, and whether an exception escaped the `except` handler (which
would terminate the process after the `finally` sleep). -/
structure CycleResult where
  state : LoopState
  attempts : List String
  sent : List String
  crashed : Bool
deriving DecidableEq, Repr

/-- The `except Exception` handler of `main`: render the error message,
attempt to send it via `send_message`. `send_message` re-raises on a failed
Telegram send and the handler does not catch that, so a failed error-path
send escapes the loop body. `prior` carries an earlier failed send attempt
of this cycle. The handler never touches `last_message` or the cursor. -/
def handle_error (st : LoopState) (prior : List String) (e : LoopErr)
    (send : String → Bool) : CycleResult :=
  let emsg := error_message e
  if send emsg then ⟨st, prior ++ [emsg], [emsg], false⟩
  else ⟨st, prior ++ [emsg], [], true⟩

/-- One iteration of the `while True` body of `main`:
`response = get_api_answer(current_timestamp)`;
`current_timestamp = response.get('current_date')` (note: before
validation; raises `AttributeError` on a non-dict);
`homeworks_response = check_response(response)`;
`message = parse_status(homeworks_response[0])` for a non-empty list, else
the fixed literal; send iff `message != last_message`, updating
`last_message` only after a successful send; any exception goes to
`handle_error`. -/
def run_cycle (st : LoopState) (net : NetOutcome)
    (send : String → Bool) : CycleResult :=
  match (get_api_answer net).2 with
  | .error _ => handle_error st [] .fetchErr send
  | .ok .notDict => handle_error st [] .attrErr send
  | .ok (.dict hw cd) =>
    let st1 : LoopState := ⟨cd, st.last_message⟩
    match check_response (.dict hw cd) with
    | .error ce => handle_error st1 [] (.checkErr ce) send
    | .ok homeworks =>
      match (match homeworks with
             | [] => (.ok "Статус не изменился" : Except ParseErr String)
             | h :: _ => parse_status h) with
      | .error pe => handle_error st1 [] (.parseErr pe) send
      | .ok message =>
        if message = st1.last_message then ⟨st1, [], [], false⟩
        else if send message then ⟨⟨cd, message⟩, [message], [message], false⟩
        else handle_error st1 [message] .sendErr send

/-- The success-path rendered message of a cycle, when fetch, validation
and extraction all succeed: the extracted status text for a non-empty
batch, the fixed status-unchanged literal for an empty one, `none` when
the cycle errors before a message is rendered. This depends only on the
network outcome, not on the loop state. -/
def cycle_message (net : NetOutcome) : Option String :=
  match (get_api_answer net).2 with
  | .error _ => none
  | .ok .notDict => none
  | .ok (.dict hw cd) =>
    match check_response (.dict hw cd) with
    | .error _ => none
    | .ok [] => some "Статус не изменился"
    | .ok (h :: _) =>
      match parse_status h with
      | .ok m => some m
      | .error _ => none

/-- The exception reaching the `except Exception` handler in a cycle, if
any: a fetch / attribute / validation / extraction error, or the exception
re-raised by a failed success-path `send_message`. -/
def cycle_error (st : LoopState) (net : NetOutcome)
    (send : String → Bool) : Option LoopErr :=
  match (get_api_answer net).2 with
  | .error _ => some .fetchErr
  | .ok .notDict => some .attrErr
  | .ok (.dict hw cd) =>
    match check_response (.dict hw cd) with
    | .error ce => some (.checkErr ce)
    | .ok homeworks =>
      match (match homeworks with
             | [] => (.ok "Статус не изменился" : Except ParseErr String)
             | h :: _ => parse_status h) with
      | .error pe => some (.parseErr pe)
      | .ok message =>
        if message = st.last_message then none
        else if send message then none
        else some .sendErr

/-- Run the loop over a finite prefix of cycles, each with its network
outcome and transport oracle; collect every successfully sent message in
order. A crashed cycle terminates the process, discarding later cycles. -/
def run_loop (st : LoopState) :
    List (NetOutcome × (String → Bool)) → LoopState × List String
  | [] => (st, [])
  | (net, send) :: rest =>
    let r := run_cycle st net send
    if r.crashed then (r.state, r.sent)
    else
      let res := run_loop r.state rest
      (res.1, r.sent ++ res.2)

/-- A network outcome delivering one homework record and a server cursor:
HTTP 200 with a well-formed body. -/
def mkNet (hw : Homework) (t : Int) : NetOutcome :=
  .response 200 (some (.dict (.list [hw]) (some t)))

/-- Spec-side predicate, following the spec's words for `validate`
failures: "a non-mapping input; a mapping missing either required key; a
mapping whose homeworks value is not a sequence". -/
def malformed_spec : RawResponse → Prop
  | .notDict => True
  | .dict hw cd => hw = .absent ∨ cd = none ∨ hw = .notList

instance : DecidablePred malformed_spec := by
  intro r
  cases r with
  | notDict => exact .isTrue trivial
  | dict hw cd => exact inferInstanceAs (Decidable (_ ∨ _ ∨ _))

/-! ## Helper lemmas about the error handler -/

@[simp]
lemma handle_error_state (st : LoopState) (prior : List String) (e : LoopErr)
    (send : String → Bool) : (handle_error st prior e send).state = st := by
  simp only [handle_error]
  split <;> rfl

@[simp]
lemma handle_error_sent (st : LoopState) (prior : List String) (e : LoopErr)
    (send : String → Bool) :
    (handle_error st prior e send).sent =
      if send (error_message e) then [error_message e] else [] := by
  simp only [handle_error]
  split <;> simp [*]

@[simp]
lemma handle_error_attempts (st : LoopState) (prior : List String) (e : LoopErr)
    (send : String → Bool) :
    (handle_error st prior e send).attempts = prior ++ [error_message e] := by
  simp only [handle_error]
  split <;> rfl

@[simp]
lemma handle_error_crashed (st : LoopState) (prior : List String) (e : LoopErr)
    (send : String → Bool) :
    (handle_error st prior e send).crashed = !send (error_message e) := by
  simp only [handle_error]
  split <;> simp [*]

/-! ## Claims about the pure components -/

/-- C5: `check_response` fails exactly when the input is not a mapping, or
is a mapping missing the `homeworks` key or the `current_date` key, or is
a mapping whose `homeworks` value is not a list; otherwise it returns the
validated homeworks sequence. (The code raises `TypeError` for the
non-mapping and non-list cases and `NonCorrectResponseFromAPI` for missing
keys; the spec folds all three into its one MalformedResponse kind.) -/
theorem check_response_malformed_iff :
    (∀ r : RawResponse,
      (∃ e, check_response r = .error e) ↔ malformed_spec r) ∧
    (∀ hs cd, check_response (.dict (.list hs) (some cd)) = .ok hs) := by
  constructor
  · intro r
    cases r with
    | notDict => simp [check_response, malformed_spec]
    | dict hw cd =>
      cases hw <;> cases cd <;>
        simp [check_response, malformed_spec, hwAsList]
  · intro hs cd
    simp [check_response, hwAsList]

/-- C6: for a record carrying a name, `parse_status` maps each status in
the verdict table (whose keys are exactly approved, reviewing, rejected)
to the fixed template containing the homework name and the looked-up
verdict text, and fails with the unknown-verdict error carrying the
offending status for any status outside the table. -/
theorem parse_status_verdicts (name s : String) :
    HOMEWORK_VERDICTS.map Prod.fst = ["approved", "reviewing", "rejected"] ∧
    (∀ v, HOMEWORK_VERDICTS.lookup s = some v →
      parse_status ⟨some name, some s⟩ =
        .ok ("Изменился статус проверки работы \"" ++ name ++ "\". " ++ v)) ∧
    (HOMEWORK_VERDICTS.lookup s = none →
      parse_status ⟨some name, some s⟩ = .error (.unknownStatus (some s))) := by
  refine ⟨rfl, ?_, ?_⟩
  · intro v hv
    simp [parse_status, hv]
  · intro hnone
    simp [parse_status, hnone]

/-- C7: `get_api_answer` makes exactly one request attempt; every failure
(transport error, non-OK status code, non-decodable body) is the single
kind `APIEndPointIsNotAvailable`; it succeeds exactly on an HTTP 200
response with a decodable body, returning that body. -/
theorem get_api_answer_single_attempt (net : NetOutcome) :
    (get_api_answer net).1 = 1 ∧
    (∀ e, (get_api_answer net).2 = .error e → e = .endpointUnavailable) ∧
    ((∃ e, (get_api_answer net).2 = .error e) ↔
      ¬ ∃ r, net = .response 200 (some r)) ∧
    (∀ r, net = .response 200 (some r) → (get_api_answer net).2 = .ok r) := by
  cases net with
  | transportError =>
    simp [get_api_answer]
    exact ⟨.endpointUnavailable, trivial⟩
  | response code body =>
    by_cases hc : code = 200
    · subst hc
      cases body with
      | none =>
        simp [get_api_answer]
        exact ⟨.endpointUnavailable, trivial⟩
      | some r => simp [get_api_answer]
    · cases body <;> simp [get_api_answer, hc] <;>
        exact ⟨.endpointUnavailable, trivial⟩

/-- C8: a cycle whose fetch succeeds with an HTTP 200 well-formed body
carrying an empty homeworks list renders exactly the fixed literal
"Статус не изменился" (the spec's "Status unchanged." sentinel); the empty
branch of the loop body returns the literal without calling
`parse_status`. -/
theorem empty_batch_fixed_literal (cd : Int) :
    cycle_message (.response 200 (some (.dict (.list []) (some cd))))
      = some "Статус не изменился" := by
  rfl

/-- C10: a record with a `homework_name` key but no `status` key fails
with the unknown-verdict error carrying the `None` sentinel as the
offending value, not with the missing-field error; the missing-field
error occurs exactly when the name key is absent. -/
theorem missing_status_is_unknown_verdict (name : String) :
    parse_status ⟨some name, none⟩ = .error (.unknownStatus none) ∧
    (∀ hw : Homework,
      parse_status hw = .error .missingName ↔ hw.homework_name = none) := by
  refine ⟨rfl, ?_⟩
  intro hw
  obtain ⟨n, s⟩ := hw
  cases n with
  | none => simp [parse_status]
  | some nm =>
    cases s with
    | none => simp [parse_status]
    | some sv =>
      cases h : HOMEWORK_VERDICTS.lookup sv <;> simp [parse_status, h]

/-! ## Helper lemmas about the loop body -/

/-- A fully successful cycle: fetch, validation and extraction succeed and
the transport accepts every message. The cursor advances to the server
cursor; the message is sent iff it differs from the last sent text. -/
lemma run_cycle_mkNet (st : LoopState) (hw : Homework) (t : Int) (m : String)
    (send : String → Bool) (h : parse_status hw = .ok m)
    (hs : ∀ x, send x = true) :
    run_cycle st (mkNet hw t) send =
      if m = st.last_message then ⟨⟨some t, st.last_message⟩, [], [], false⟩
      else ⟨⟨some t, m⟩, [m], [m], false⟩ := by
  simp [run_cycle, mkNet, get_api_answer, check_response, hwAsList, h, hs]

/-- A cycle whose fetch/validate/extract stages raise error `e` (so no
success message is rendered): the error notification is the one attempted
send, `last_message` is untouched, and the same error recurs from the
resulting state given the same network outcome. -/
lemma run_cycle_no_message (st : LoopState) (net : NetOutcome)
    (send : String → Bool) (e : LoopErr)
    (hm : cycle_message net = none) (he : cycle_error st net send = some e) :
    (run_cycle st net send).sent
        = (if send (error_message e) then [error_message e] else []) ∧
    (run_cycle st net send).state.last_message = st.last_message ∧
    cycle_error (run_cycle st net send).state net send = some e := by
  cases net with
  | transportError =>
    simp [cycle_error, get_api_answer] at he
    simp [run_cycle, cycle_error, get_api_answer, ← he]
  | response code body =>
    by_cases hc : code = 200
    · subst hc
      cases body with
      | none =>
        simp [cycle_error, get_api_answer] at he
        simp [run_cycle, cycle_error, get_api_answer, ← he]
      | some r =>
        cases r with
        | notDict =>
          simp [cycle_error, get_api_answer] at he
          simp [run_cycle, cycle_error, get_api_answer, ← he]
        | dict hw cd =>
          cases hck : check_response (.dict hw cd) with
          | error ce =>
            simp [cycle_error, get_api_answer, hck] at he
            simp [run_cycle, cycle_error, get_api_answer, hck, ← he]
          | ok homeworks =>
            cases homeworks with
            | nil => simp [cycle_message, get_api_answer, hck] at hm
            | cons h0 tl =>
              cases hp : parse_status h0 with
              | ok m => simp [cycle_message, get_api_answer, hck, hp] at hm
              | error pe =>
                simp [cycle_error, get_api_answer, hck, hp] at he
                simp [run_cycle, cycle_error, get_api_answer, hck, hp, ← he]
    · cases body with
      | none =>
        simp [cycle_error, get_api_answer, hc] at he
        simp [run_cycle, cycle_error, get_api_answer, hc, ← he]
      | some r =>
        simp [cycle_error, get_api_answer, hc] at he
        simp [run_cycle, cycle_error, get_api_answer, hc, ← he]

/-! ## Claims about the notification loop -/

/-- C3: with every transport send succeeding, four successful cycles whose
rendered messages are m1, m1, m2, m1 (m1 ≠ m2, and m1 differing from the
initially last-sent text) produce exactly the three sends m1, m2, m1:
deduplication compares only against the most recently sent message, so an
equal consecutive message is skipped while a message equal to an earlier,
non-adjacent one is re-sent. -/
theorem dedup_against_last_sent_only (st : LoopState) (hwA hwB : Homework)
    (tA tB tC tD : Int) (m1 m2 : String) (send : String → Bool)
    (h1 : parse_status hwA = .ok m1) (h2 : parse_status hwB = .ok m2)
    (hne : m1 ≠ m2) (h0 : st.last_message ≠ m1) (hs : ∀ x, send x = true) :
    (run_loop st [(mkNet hwA tA, send), (mkNet hwA tB, send),
                  (mkNet hwB tC, send), (mkNet hwA tD, send)]).2
      = [m1, m2, m1] := by
  have e1 : run_cycle st (mkNet hwA tA) send
      = ⟨⟨some tA, m1⟩, [m1], [m1], false⟩ := by
    rw [run_cycle_mkNet st hwA tA m1 send h1 hs,
        if_neg (fun hh => h0 hh.symm)]
  have e2 : run_cycle ⟨some tA, m1⟩ (mkNet hwA tB) send
      = ⟨⟨some tB, m1⟩, [], [], false⟩ := by
    rw [run_cycle_mkNet ⟨some tA, m1⟩ hwA tB m1 send h1 hs, if_pos rfl]
  have e3 : run_cycle ⟨some tB, m1⟩ (mkNet hwB tC) send
      = ⟨⟨some tC, m2⟩, [m2], [m2], false⟩ := by
    rw [run_cycle_mkNet ⟨some tB, m1⟩ hwB tC m2 send h2 hs,
        if_neg (fun hh => hne hh.symm)]
  have e4 : run_cycle ⟨some tC, m2⟩ (mkNet hwA tD) send
      = ⟨⟨some tD, m1⟩, [m1], [m1], false⟩ := by
    rw [run_cycle_mkNet ⟨some tC, m2⟩ hwA tD m1 send h1 hs, if_neg hne]
  simp [run_loop, e1, e2, e3, e4]

/-- Witness for C3: a concrete run (approved / approved / rejected /
approved for homework "a", all sends succeeding, starting from the empty
initial last message) yields exactly the three rendered sends. -/
theorem dedup_against_last_sent_only_witness :
    (run_loop ⟨some 0, ""⟩
      [(mkNet ⟨some "a", some "approved"⟩ 1, fun _ => true),
       (mkNet ⟨some "a", some "approved"⟩ 2, fun _ => true),
       (mkNet ⟨some "a", some "rejected"⟩ 3, fun _ => true),
       (mkNet ⟨some "a", some "approved"⟩ 4, fun _ => true)]).2
      = ["Изменился статус проверки работы \"a\". Работа проверена: ревьюеру всё понравилось. Ура!",
         "Изменился статус проверки работы \"a\". Работа проверена: у ревьюера есть замечания.",
         "Изменился статус проверки работы \"a\". Работа проверена: ревьюеру всё понравилось. Ура!"] :=
  dedup_against_last_sent_only ⟨some 0, ""⟩ ⟨some "a", some "approved"⟩
    ⟨some "a", some "rejected"⟩ 1 2 3 4 _ _ (fun _ => true) rfl rfl
    (by decide) (by decide) (fun _ => rfl)

/-- C1 counterexample: a cycle that fails at validation (HTTP 200, mapping
body whose homeworks value is not a list, so `check_response` raises and
the error notification goes out) nevertheless overwrites the cursor with
the server-supplied current_date, because `main` assigns
`response.get('current_date')` before calling `check_response`. -/
theorem cursor_advances_despite_failed_validation :
    ((run_cycle ⟨some 0, ""⟩ (.response 200 (some (.dict .notList (some 123))))
        (fun _ => true)).state.current_timestamp = some 123) ∧
    ((run_cycle ⟨some 0, ""⟩ (.response 200 (some (.dict .notList (some 123))))
        (fun _ => true)).sent
      = [error_message (.checkErr .typeErrorNotList)]) ∧
    (some 123 ≠ (some 0 : Option Int)) := by
  refine ⟨rfl, rfl, by decide⟩

/-- C1 amended: the cursor is left unchanged when the fetch fails or when
the body is not a mapping (`response.get` raises before the assignment);
but whenever the fetch succeeds with an HTTP 200 mapping body, the cursor
is overwritten with that mapping's current_date value (the None sentinel
when the key is absent) regardless of whether validation or extraction
succeeds — the assignment precedes validation. -/
theorem cursor_update_policy (st : LoopState) (net : NetOutcome)
    (send : String → Bool) :
    (run_cycle st net send).state.current_timestamp =
      match net with
      | .response code (some (.dict _ cd)) =>
          if code = 200 then cd else st.current_timestamp
      | _ => st.current_timestamp := by
  cases net with
  | transportError => simp [run_cycle, get_api_answer]
  | response code body =>
    by_cases hc : code = 200
    · subst hc
      cases body with
      | none => simp [run_cycle, get_api_answer]
      | some r =>
        cases r with
        | notDict => simp [run_cycle, get_api_answer]
        | dict hw cd =>
          cases hck : check_response (.dict hw cd) with
          | error ce => simp [run_cycle, get_api_answer, hck]
          | ok homeworks =>
            cases homeworks with
            | nil =>
              simp only [run_cycle, get_api_answer]
              simp [hck]
              split <;> (try split) <;> simp
            | cons h0 tl =>
              cases hp : parse_status h0 with
              | error pe => simp [run_cycle, get_api_answer, hck, hp]
              | ok m =>
                simp only [run_cycle, get_api_answer]
                simp [hck, hp]
                split <;> (try split) <;> simp
    · cases body with
      | none => simp [run_cycle, get_api_answer, hc]
      | some r =>
        cases r <;> simp [run_cycle, get_api_answer, hc]

/-- C2 counterexample: a cycle that fails at fetch and whose error
notification send also fails terminates the loop — the exception
`send_message` re-raises after the failed Telegram send is not caught by
the `except` handler it is called from — rather than being swallowed with
a log line: the subsequent cycle never runs and nothing more is sent. -/
theorem failed_error_send_terminates_loop :
    ((run_cycle ⟨some 0, ""⟩ .transportError (fun _ => false)).crashed
        = true) ∧
    ((run_loop ⟨some 0, ""⟩
        [(.transportError, fun _ => false),
         (mkNet ⟨some "a", some "approved"⟩ 5, fun _ => true)]).2 = []) := by
  refine ⟨rfl, rfl⟩

/-- C2 amended: every error raised during a cycle's fetch, validate or
extract stages (or by a failed success-path send) is caught at the loop
level and converted into a single error-notification attempt, the cycle's
last send attempt; the process survives the cycle iff no error occurred
or that error notification was itself transmitted successfully — a failed
error-notification send is re-raised and terminates the loop instead of
being merely logged. -/
theorem cycle_error_single_notification (st : LoopState) (net : NetOutcome)
    (send : String → Bool) :
    match cycle_error st net send with
    | some e =>
        (run_cycle st net send).attempts.getLast? = some (error_message e) ∧
        (run_cycle st net send).crashed = !send (error_message e)
    | none => (run_cycle st net send).crashed = false := by
  cases net with
  | transportError => simp [run_cycle, cycle_error, get_api_answer]
  | response code body =>
    by_cases hc : code = 200
    · subst hc
      cases body with
      | none => simp [run_cycle, cycle_error, get_api_answer]
      | some r =>
        cases r with
        | notDict => simp [run_cycle, cycle_error, get_api_answer]
        | dict hw cd =>
          cases hck : check_response (.dict hw cd) with
          | error ce => simp [run_cycle, cycle_error, get_api_answer, hck]
          | ok homeworks =>
            cases homeworks with
            | nil =>
              by_cases hm : "Статус не изменился" = st.last_message
              · simp [run_cycle, cycle_error, get_api_answer, hck, hm]
              · cases hsend : send "Статус не изменился" with
                | true =>
                  simp [run_cycle, cycle_error, get_api_answer, hck, hm,
                        hsend]
                | false =>
                  simp [run_cycle, cycle_error, get_api_answer, hck, hm,
                        hsend]
            | cons h0 tl =>
              cases hp : parse_status h0 with
              | error pe =>
                simp [run_cycle, cycle_error, get_api_answer, hck, hp]
              | ok m =>
                by_cases hm : m = st.last_message
                · simp [run_cycle, cycle_error, get_api_answer, hck, hp, hm]
                · cases hsend : send m with
                  | true =>
                    simp [run_cycle, cycle_error, get_api_answer, hck, hp,
                          hm, hsend]
                  | false =>
                    simp [run_cycle, cycle_error, get_api_answer, hck, hp,
                          hm, hsend]
    · cases body with
      | none => simp [run_cycle, cycle_error, get_api_answer, hc]
      | some r => simp [run_cycle, cycle_error, get_api_answer, hc]

/-- C4 counterexample: an error notification sent successfully does not
update `last_message` — after the cycle, `last_message` still holds the
previous success-path text, not the most recently sent notification. -/
theorem error_notification_skips_last_message :
    ((run_cycle ⟨some 0, "prev"⟩ .transportError (fun _ => true)).sent
        = [error_message .fetchErr]) ∧
    ((run_cycle ⟨some 0, "prev"⟩ .transportError
        (fun _ => true)).state.last_message = "prev") ∧
    (error_message .fetchErr ≠ "prev") := by
  refine ⟨rfl, rfl, by decide⟩

/-- C4 amended: `last_message` tracks the most recently sent success-path
status message only — it mutates exactly when a rendered status message
differing from it is sent successfully, taking that message's text, and
whenever it changes the new text was sent this cycle; error notifications
leave it untouched. -/
theorem last_message_tracks_success_sends (st : LoopState)
    (net : NetOutcome) (send : String → Bool) :
    ((run_cycle st net send).state.last_message =
      match cycle_message net with
      | some m =>
          if m = st.last_message then st.last_message
          else if send m then m else st.last_message
      | none => st.last_message) ∧
    ((run_cycle st net send).state.last_message = st.last_message ∨
      (run_cycle st net send).state.last_message
        ∈ (run_cycle st net send).sent) := by
  cases net with
  | transportError => simp [run_cycle, cycle_message, get_api_answer]
  | response code body =>
    by_cases hc : code = 200
    · subst hc
      cases body with
      | none => simp [run_cycle, cycle_message, get_api_answer]
      | some r =>
        cases r with
        | notDict => simp [run_cycle, cycle_message, get_api_answer]
        | dict hw cd =>
          cases hck : check_response (.dict hw cd) with
          | error ce => simp [run_cycle, cycle_message, get_api_answer, hck]
          | ok homeworks =>
            cases homeworks with
            | nil =>
              by_cases hm : "Статус не изменился" = st.last_message
              · simp [run_cycle, cycle_message, get_api_answer, hck, hm]
              · cases hsend : send "Статус не изменился" with
                | true =>
                  simp [run_cycle, cycle_message, get_api_answer, hck, hm,
                        hsend]
                | false =>
                  simp [run_cycle, cycle_message, get_api_answer, hck, hm,
                        hsend]
            | cons h0 tl =>
              cases hp : parse_status h0 with
              | error pe =>
                simp [run_cycle, cycle_message, get_api_answer, hck, hp]
              | ok m =>
                by_cases hm : m = st.last_message
                · simp [run_cycle, cycle_message, get_api_answer, hck, hp,
                        hm]
                · cases hsend : send m with
                  | true =>
                    simp [run_cycle, cycle_message, get_api_answer, hck,
                          hp, hm, hsend]
                  | false =>
                    simp [run_cycle, cycle_message, get_api_answer, hck,
                          hp, hm, hsend]
    · cases body with
      | none => simp [run_cycle, cycle_message, get_api_answer, hc]
      | some r => simp [run_cycle, cycle_message, get_api_answer, hc]

/-- C9: a cycle whose fetch/validate/extract stages raise error `e` sends
the error notification unconditionally, without comparing it to
`last_message` (the hypotheses place no constraint on the state, and in
the witness the last sent text already equals the error text); running a
second cycle with the same failing outcome sends the identical error
notification again — deduplication applies only to the success path. -/
theorem error_notification_every_cycle (st : LoopState) (net : NetOutcome)
    (send : String → Bool) (e : LoopErr)
    (hm : cycle_message net = none) (he : cycle_error st net send = some e)
    (hs : send (error_message e) = true) :
    (run_cycle st net send).sent = [error_message e] ∧
    (run_cycle (run_cycle st net send).state net send).sent
      = [error_message e] := by
  obtain ⟨h1, h2, h3⟩ := run_cycle_no_message st net send e hm he
  refine ⟨by rw [h1, if_pos hs], ?_⟩
  obtain ⟨h4, h5, h6⟩ :=
    run_cycle_no_message (run_cycle st net send).state net send e hm h3
  rw [h4, if_pos hs]

/-- Witness for C9: an endpoint outage with the transport accepting the
error text, starting from a state whose last sent message is already
exactly that error text — it is sent anyway, on both cycles. -/
theorem error_notification_every_cycle_witness :
    (run_cycle ⟨some 0, error_message .fetchErr⟩ .transportError
        (fun _ => true)).sent = [error_message .fetchErr] ∧
    (run_cycle (run_cycle ⟨some 0, error_message .fetchErr⟩ .transportError
        (fun _ => true)).state .transportError (fun _ => true)).sent
      = [error_message .fetchErr] :=
  error_notification_every_cycle ⟨some 0, error_message .fetchErr⟩
    .transportError (fun _ => true) .fetchErr rfl rfl rfl

end HomeworkBot
